import Mathlib

/-!
Verification of the Mainflux users-service authorization core.

The definitions below are a shallow embedding of the Go sources:
  * `users/service.go` — the `usersService` orchestrator
    (`Register`, `Login`, `ViewUser`, `ViewProfile`, `UpdateUser`,
    `ListMembers` and their helpers `checkAuthz`, `authorize`,
    `claimOwnership`, `identify`, `members`);
  * the Keto-backed `policyAgent` (`CheckPolicy` / `AddPolicy`);
  * the in-memory `policyAgentMock` (`CheckPolicy` / `AddPolicy`).

Go conventions are mapped as follows: a Go `(T, error)` return value
becomes `T × Option Err` (`none` = nil error); the `mainflux/pkg/errors`
wrapping discipline `errors.Wrap(wrapper, wrapped)` becomes the
`Err.wrap` constructor, and the externally observable "kind" of an
error is the message of its outermost wrapper; external collaborators
(gRPC auth client, repository, hasher, id provider) become fields of an
explicit environment record, and Go side effects on them are recorded
as an explicit event trace where a claim is about call ordering.
-/

namespace Mainflux

/-- Mainflux `pkg/errors`: an error is either a leaf created by
`errors.New(msg)` or `errors.Wrap(wrapper, wrapped)`, whose visible
message (kind) is the wrapper's. -/
inductive Err where
  | base (msg : String)
  | wrap (wrapper wrapped : Err)
deriving DecidableEq, Repr

/-- The externally observable kind of an error: the message of the
outermost wrapper, matching how callers branch on mainflux errors
(`errors.Contains` on the outer chain). -/
def Err.kind : Err → String
  | .base m => m
  | .wrap w _ => w.kind

/-- `errors.New("missing or invalid credentials provided")` (users package). -/
def ErrUnauthorizedAccess : Err := .base "missing or invalid credentials provided"

/-- `errors.New("failed to perform authorization over the entity")` (users package). -/
def ErrAuthorization : Err := .base "failed to perform authorization over the entity"

/-- `errors.New("malformed entity specification")` (users package). -/
def ErrMalformedEntity : Err := .base "malformed entity specification"

/-- `errors.New("failed to create user")` (users package). -/
def ErrCreateUser : Err := .base "failed to create user"

/-- `errors.New("password does not meet the requirements")` (users package). -/
def ErrPasswordFormat : Err := .base "password does not meet the requirements"

/-- `errors.New("non-existent user")` (users package). -/
def ErrUserNotFound : Err := .base "non-existent user"

/-- `errors.New("non-existent entity")` (users package). -/
def ErrNotFound : Err := .base "non-existent entity"

/-- `auth.ErrAuthorization`, the error the auth package's policy
agents return on denial. -/
def AuthErrAuthorization : Err := .base "failed to perform authorization over the entity"

/-- `auth.PolicyReq`: the relation tuple every check and grant is
expressed in. -/
structure PolicyReq where
  subject : String
  object : String
  relation : String
deriving DecidableEq, Repr

/-- `mocks.MockSubjectSet` from the in-memory policy agent. -/
structure MockSubjectSet where
  object : String
  relation : String
deriving DecidableEq, Repr

/-- The state of `policyAgentMock`: the Go map
`authzDB map[string][]MockSubjectSet`, read with Go's zero-value
semantics (a missing key reads as the empty slice). -/
def AuthzDB := String → List MockSubjectSet

/-- The empty `authzDB` map: every subject reads as the empty slice. -/
def AuthzDB.empty : AuthzDB := fun _ => []

namespace policyAgentMock

/-- `policyAgentMock.CheckPolicy`: scan the subject's subject-set list
for an entry matching object and relation; `nil` on a hit,
`auth.ErrAuthorization` otherwise. -/
def CheckPolicy (db : AuthzDB) (pr : PolicyReq) : Option Err :=
  if (db pr.subject).any (fun ss => ss.object == pr.object && ss.relation == pr.relation) then
    none
  else
    some AuthErrAuthorization

/-- `policyAgentMock.AddPolicy`: append `{Object, Relation}` to the
subject's list; always returns `nil`. The result pairs the updated map
with the (always-nil) error. -/
def AddPolicy (db : AuthzDB) (pr : PolicyReq) : AuthzDB × Option Err :=
  (fun s => if s = pr.subject then db s ++ [⟨pr.object, pr.relation⟩] else db s, none)

/-- Run a sequence of `AddPolicy` calls against a starting map. -/
def applyAdds (db : AuthzDB) : List PolicyReq → AuthzDB
  | [] => db
  | pr :: rest => applyAdds (AddPolicy db pr).1 rest

end policyAgentMock

/-! ### Keto-backed policy agent (`auth/keto`) -/

/-- `acl.CheckRequest` as built by the Keto agent: namespace, object,
relation, and the subject's id reference. -/
structure CheckRequest where
  Namespace : String
  Object : String
  Relation : String
  Subject : String
deriving DecidableEq, Repr

/-- `acl.RelationTuple` as built by the Keto agent. -/
structure RelationTuple where
  Namespace : String
  Object : String
  Relation : String
  Subject : String
deriving DecidableEq, Repr

/-- `acl.RelationTupleDelta_INSERT` — the only action the agent uses. -/
inductive DeltaAction where
  | insert
deriving DecidableEq, Repr

/-- `acl.RelationTupleDelta`. -/
structure RelationTupleDelta where
  action : DeltaAction
  tuple : RelationTuple
deriving DecidableEq, Repr

/-- `acl.TransactRelationTuplesRequest`. -/
structure TransactRelationTuplesRequest where
  deltas : List RelationTupleDelta
deriving DecidableEq, Repr

/-- The two gRPC clients held by the Keto `policyAgent`:
`checker.Check` returns `(res.GetAllowed(), err)` and
`writer.TransactRelationTuples` returns only its error (the response is
discarded by the agent). -/
structure KetoEnv where
  checkerCheck : CheckRequest → Bool × Option Err
  writerTransact : TransactRelationTuplesRequest → Option Err

/-- `const ketoNamespace = "members"`. -/
def ketoNamespace : String := "members"

namespace policyAgent

/-- Keto `policyAgent.CheckPolicy`: query graph membership; a transport
error is wrapped as `errors.Wrap(err, auth.ErrAuthorization)` (the
underlying error is the outer wrapper), and a negative answer is
`auth.ErrAuthorization`. -/
def CheckPolicy (env : KetoEnv) (pr : PolicyReq) : Option Err :=
  let res := env.checkerCheck
    ⟨ketoNamespace, pr.object, pr.relation, pr.subject⟩
  match res.2 with
  | some e => some (Err.wrap e AuthErrAuthorization)
  | none => if res.1 then none else some AuthErrAuthorization

/-- Keto `policyAgent.AddPolicy`: issue a transaction with a single
INSERT delta for the tuple and return the transaction's error value
unchanged. -/
def AddPolicy (env : KetoEnv) (pr : PolicyReq) : Option Err :=
  env.writerTransact
    ⟨[⟨.insert, ⟨ketoNamespace, pr.object, pr.relation, pr.subject⟩⟩]⟩

end policyAgent

/-! ### Users-service data model (`users` package) -/

/-- Stand-in for `map[string]interface{}` metadata: its contents are
opaque to the service, which only passes it through. -/
abbrev Metadata := List (String × String)

/-- `users.User`. Field defaults are the Go zero values, so `{}` is the
Go literal `User{}`. -/
structure User where
  ID : String := ""
  Email : String := ""
  Password : String := ""
  Metadata : Metadata := []
deriving DecidableEq, Repr

/-- `users.PageMetadata`, defaults = Go zero values. -/
structure PageMetadata where
  Total : Nat := 0
  Offset : Nat := 0
  Limit : Nat := 0
  Name : String := ""
deriving DecidableEq, Repr

/-- `users.UserPage`. `Users` is an `Option` to keep Go's distinction
between a nil slice (`none`, the zero value) and an allocated empty
slice (`some []`). -/
structure UserPage extends PageMetadata where
  Users : Option (List User) := none
deriving DecidableEq, Repr

/-- `mainflux.UserIdentity` as returned by the auth client's
`Identify`. -/
structure Identity where
  Id : String
  Email : String
deriving DecidableEq, Repr

/-- `users.userIdentity`, the service's internal identity record. -/
structure userIdentity where
  id : String := ""
  email : String := ""
deriving DecidableEq, Repr

/-- `mainflux.AuthorizeReq`. -/
structure AuthorizeReq where
  Sub : String
  Obj : String
  Act : String
deriving DecidableEq, Repr

/-- `mainflux.AddPolicyReq`. -/
structure AddPolicyReq where
  Sub : String
  Obj : String
  Act : String
deriving DecidableEq, Repr

/-- `mainflux.IssueReq`. -/
structure IssueReq where
  Id : String
  Email : String
  type : Nat
deriving DecidableEq, Repr

/-- `mainflux.MembersReq` as built by `usersService.members`. -/
structure MembersReq where
  Token : String
  GroupID : String
  Offset : Nat
  Limit : Nat
  type : String
deriving DecidableEq, Repr

/-- `auth.UserKey`: the key-type constant for ordinary access tokens;
its numeric value is opaque to this development. -/
def UserKey : Nat := 0

/-- `memberRelationKey = "member"`. -/
def memberRelationKey : String := "member"

/-- `authoritiesObjKey = "authorities"`. -/
def authoritiesObjKey : String := "authorities"

/-- `usersObjKey = "users"`. -/
def usersObjKey : String := "users"

/-- The external collaborators of `usersService`, one field per call the
service makes: the gRPC auth client (`Authorize`, `AddPolicy`,
`Identify`, `Issue`, `Members`), the id provider, the hasher, the
password regexp, `User.Validate` (whose body lives outside the studied
sources and is therefore kept abstract), and the user repository. Each
Go `(T, error)` result is `T × Option Err`. -/
structure SvcEnv where
  authAuthorize : AuthorizeReq → Bool × Option Err
  authAddPolicy : AddPolicyReq → Bool × Option Err
  authIdentify : String → Identity × Option Err
  authIssue : IssueReq → String × Option Err
  authMembers : MembersReq → List String × Option Err
  idProviderID : String × Option Err
  hasherHash : String → String × Option Err
  hasherCompare : String → String → Option Err
  passRegexMatch : String → Bool
  userValidate : User → Option Err
  usersSave : User → String × Option Err
  usersRetrieveByEmail : String → User × Option Err
  usersRetrieveByID : String → User × Option Err
  usersRetrieveAll : Nat → Nat → Option (List String) → String → Metadata → UserPage × Option Err
  usersUpdateUser : User → Option Err

/-- External calls that mutate or persist, recorded in order of
execution where a claim is about call ordering. -/
inductive Event where
  | idProviderCall
  | addPolicyCall (req : AddPolicyReq)
  | hashCall (password : String)
  | saveCall (u : User)
  | updateUserCall (u : User)
deriving DecidableEq, Repr

namespace usersService

/-- `usersService.identify`: exchange the token for an identity; a
client error becomes `errors.Wrap(ErrUnauthorizedAccess, err)` with the
zero-value identity. -/
def identify (env : SvcEnv) (token : String) : userIdentity × Option Err :=
  let res := env.authIdentify token
  match res.2 with
  | some e => ({}, some (Err.wrap ErrUnauthorizedAccess e))
  | none => (⟨res.1.Id, res.1.Email⟩, none)

/-- `usersService.issue`: request a token from the auth service; a
client error becomes `errors.Wrap(ErrUserNotFound, err)`. -/
def issue (env : SvcEnv) (id email : String) (keyType : Nat) : String × Option Err :=
  let res := env.authIssue ⟨id, email, keyType⟩
  match res.2 with
  | some e => ("", some (Err.wrap ErrUserNotFound e))
  | none => (res.1, none)

/-- `usersService.authorize`: ask the auth client whether the tuple is
authorized; a client error becomes `errors.Wrap(ErrAuthorization, err)`
and a negative answer becomes `ErrAuthorization`. -/
def authorize (env : SvcEnv) (subject object relation : String) : Option Err :=
  let res := env.authAuthorize ⟨subject, object, relation⟩
  match res.2 with
  | some e => some (Err.wrap ErrAuthorization e)
  | none => if res.1 then none else some ErrAuthorization

/-- `usersService.claimOwnership`: ask the auth client to add the
tuple; error handling mirrors `authorize`. -/
def claimOwnership (env : SvcEnv) (subject object relation : String) : Option Err :=
  let res := env.authAddPolicy ⟨subject, object, relation⟩
  match res.2 with
  | some e => some (Err.wrap ErrAuthorization e)
  | none => if res.1 then none else some ErrAuthorization

/-- `usersService.checkAuthz`: pass if the wildcard bootstrap tuple
`("*", "user", "create")` is authorized; otherwise require a non-empty
token whose identity holds `member` on `authorities`. -/
def checkAuthz (env : SvcEnv) (token : String) : Option Err :=
  match authorize env "*" "user" "create" with
  | none => none
  | some _ =>
    if token = "" then some ErrUnauthorizedAccess
    else
      match identify env token with
      | (_, some e) => some e
      | (ir, none) => authorize env ir.id authoritiesObjKey memberRelationKey

/-- `usersService.Register`, paired with the trace of id-provider,
policy-grant, hash and repository-save calls it performs, in execution
order. -/
def Register (env : SvcEnv) (token : String) (user : User) :
    (String × Option Err) × List Event :=
  match checkAuthz env token with
  | some e => (("", some e), [])
  | none =>
  match env.userValidate user with
  | some e => (("", some e), [])
  | none =>
  if !env.passRegexMatch user.Password then (("", some ErrPasswordFormat), [])
  else
  let idRes := env.idProviderID
  match idRes.2 with
  | some e => (("", some (Err.wrap ErrCreateUser e)), [.idProviderCall])
  | none =>
  let user := { user with ID := idRes.1 }
  match claimOwnership env user.ID usersObjKey memberRelationKey with
  | some e =>
    (("", some e), [.idProviderCall, .addPolicyCall ⟨user.ID, usersObjKey, memberRelationKey⟩])
  | none =>
  let hashRes := env.hasherHash user.Password
  match hashRes.2 with
  | some e =>
    (("", some (Err.wrap ErrMalformedEntity e)),
     [.idProviderCall, .addPolicyCall ⟨user.ID, usersObjKey, memberRelationKey⟩,
      .hashCall user.Password])
  | none =>
  let saved := { user with Password := hashRes.1 }
  let saveRes := env.usersSave saved
  let trace : List Event :=
    [.idProviderCall, .addPolicyCall ⟨user.ID, usersObjKey, memberRelationKey⟩,
     .hashCall user.Password, .saveCall saved]
  match saveRes.2 with
  | some e => (("", some e), trace)
  | none => ((saveRes.1, none), trace)

/-- `usersService.Login`: retrieve by email, compare hashes, then issue
a `UserKey` token; both lookup and comparison failures become
`errors.Wrap(ErrUnauthorizedAccess, err)`. -/
def Login (env : SvcEnv) (user : User) : String × Option Err :=
  let dbRes := env.usersRetrieveByEmail user.Email
  match dbRes.2 with
  | some e => ("", some (Err.wrap ErrUnauthorizedAccess e))
  | none =>
  match env.hasherCompare user.Password dbRes.1.Password with
  | some e => ("", some (Err.wrap ErrUnauthorizedAccess e))
  | none => issue env dbRes.1.ID dbRes.1.Email UserKey

/-- `usersService.ViewUser`: identify the caller, fetch the target by
id (a lookup failure becomes `errors.Wrap(ErrUnauthorizedAccess, err)`
with the zero `User`), and return the user with an explicitly empty
password. -/
def ViewUser (env : SvcEnv) (token id : String) : User × Option Err :=
  match identify env token with
  | (_, some e) => ({}, some e)
  | (_, none) =>
  let dbRes := env.usersRetrieveByID id
  match dbRes.2 with
  | some e => ({}, some (Err.wrap ErrUnauthorizedAccess e))
  | none =>
    ({ ID := id, Email := dbRes.1.Email, Password := "", Metadata := dbRes.1.Metadata }, none)

/-- `usersService.ViewProfile`: identify the caller and fetch their own
record by the resolved email; the returned literal omits the password
field (Go zero value `""`). -/
def ViewProfile (env : SvcEnv) (token : String) : User × Option Err :=
  match identify env token with
  | (_, some e) => ({}, some e)
  | (ir, none) =>
  let dbRes := env.usersRetrieveByEmail ir.email
  match dbRes.2 with
  | some e => ({}, some (Err.wrap ErrUnauthorizedAccess e))
  | none =>
    ({ ID := dbRes.1.ID, Email := ir.email, Metadata := dbRes.1.Metadata }, none)

/-- `usersService.UpdateUser`, paired with the trace of repository
update calls: the repository receives a `User` built only from the
resolved identity's email and the caller's metadata. -/
def UpdateUser (env : SvcEnv) (token : String) (u : User) :
    Option Err × List Event :=
  match identify env token with
  | (_, some e) => (some (Err.wrap ErrUnauthorizedAccess e), [])
  | (ir, none) =>
    let user : User := { Email := ir.email, Metadata := u.Metadata }
    (env.usersUpdateUser user, [.updateUserCall user])

/-- `usersService.members`. NOTE the source's parameter order: the
signature is `(…, limit, offset uint64)` while the request literal sets
`Offset: offset, Limit: limit`. -/
def members (env : SvcEnv) (token groupID : String) (limit offset : Nat) :
    List String × Option Err :=
  let req : MembersReq :=
    { Token := token, GroupID := groupID, Offset := offset, Limit := limit, type := "users" }
  let res := env.authMembers req
  match res.2 with
  | some e => ([], some e)
  | none => (res.1, none)

/-- `usersService.ListMembers`: identify the caller, fetch the member
ids via `members` (passing `offset, limit` positionally, as the source
call site does), and either return an empty page echoing the request's
offset/limit or delegate to the repository. -/
def ListMembers (env : SvcEnv) (token groupID : String) (offset limit : Nat)
    (m : Metadata) : UserPage × Option Err :=
  match identify env token with
  | (_, some e) => ({}, some e)
  | (_, none) =>
  match members env token groupID offset limit with
  | (_, some e) => ({}, some e)
  | (userIDs, none) =>
    if userIDs.length = 0 then
      ({ Users := some [], Total := 0, Offset := offset, Limit := limit }, none)
    else
      env.usersRetrieveAll offset limit (some userIDs) "" m

end usersService

/-! ### Helper lemmas -/

/-- Reading a subject's slice after a run of `AddPolicy` calls: the
starting slice followed by one `MockSubjectSet` per added request with
that subject, in insertion order. -/
theorem applyAdds_apply (adds : List PolicyReq) (db : AuthzDB) (s : String) :
    policyAgentMock.applyAdds db adds s
      = db s ++ (adds.filter (fun q => q.subject == s)).map (fun q => ⟨q.object, q.relation⟩) := by
  induction adds generalizing db with
  | nil => simp [policyAgentMock.applyAdds]
  | cons pr rest ih =>
    show policyAgentMock.applyAdds (policyAgentMock.AddPolicy db pr).1 rest s = _
    rw [ih]
    by_cases h : pr.subject = s
    · simp [policyAgentMock.AddPolicy, List.filter_cons, h, List.append_assoc]
    · have h' : ¬ s = pr.subject := fun hs => h hs.symm
      simp [policyAgentMock.AddPolicy, List.filter_cons, h, h']

/-- `policyAgentMock.CheckPolicy` never returns any error other than
`auth.ErrAuthorization`. -/
theorem mock_check_none_or_denied (db : AuthzDB) (pr : PolicyReq) :
    policyAgentMock.CheckPolicy db pr = none
      ∨ policyAgentMock.CheckPolicy db pr = some AuthErrAuthorization := by
  unfold policyAgentMock.CheckPolicy
  split <;> simp

/-- `CheckPolicy` on the state reached from the empty map by a run of
`AddPolicy` calls succeeds exactly for the requests in the run. -/
theorem mock_check_applyAdds_none_iff (adds : List PolicyReq) (pr : PolicyReq) :
    policyAgentMock.CheckPolicy (policyAgentMock.applyAdds AuthzDB.empty adds) pr = none
      ↔ pr ∈ adds := by
  unfold policyAgentMock.CheckPolicy
  rw [applyAdds_apply]
  have hempty : AuthzDB.empty pr.subject = [] := rfl
  rw [hempty]
  by_cases hc :
      ((adds.filter (fun q => q.subject == pr.subject)).map
          (fun q => (⟨q.object, q.relation⟩ : MockSubjectSet))).any
        (fun ss => ss.object == pr.object && ss.relation == pr.relation)
  · simp only [List.nil_append, hc, if_true, true_iff]
    rw [List.any_eq_true] at hc
    obtain ⟨ss, hss, hmatch⟩ := hc
    rw [List.mem_map] at hss
    obtain ⟨q, hq, hssq⟩ := hss
    rw [List.mem_filter] at hq
    obtain ⟨hqmem, hqsub⟩ := hq
    have h1 : q.object = pr.object := by
      subst hssq
      simpa using (Bool.and_elim_left hmatch)
    have h2 : q.relation = pr.relation := by
      subst hssq
      simpa using (Bool.and_elim_right hmatch)
    have h3 : q.subject = pr.subject := by simpa using hqsub
    have : q = pr := by
      cases q; cases pr
      simp_all
    exact this ▸ hqmem
  · simp only [List.nil_append]
    rw [if_neg hc]
    constructor
    · intro h; cases h
    · intro hmem
      exfalso
      apply hc
      rw [List.any_eq_true]
      refine ⟨⟨pr.object, pr.relation⟩, ?_, by simp⟩
      rw [List.mem_map]
      exact ⟨pr, by rw [List.mem_filter]; exact ⟨hmem, by simp⟩, rfl⟩

/-! ### Test environments (concrete inputs for witnesses and
counterexamples) -/

/-- A Keto environment whose write transaction fails with a plain
transport error. -/
def ketoFailEnv : KetoEnv :=
  ⟨fun _ => (false, none), fun _ => some (Err.base "transaction failed")⟩

/-- A service environment in which every external dependency answers
with a fixed, simple value. -/
def baseEnv : SvcEnv where
  authAuthorize _ := (false, none)
  authAddPolicy _ := (false, none)
  authIdentify _ := (⟨"", ""⟩, some (Err.base "invalid token"))
  authIssue _ := ("", some (Err.base "issue failed"))
  authMembers _ := ([], none)
  idProviderID := ("", some (Err.base "no id"))
  hasherHash s := (s, none)
  hasherCompare p h := if p = h then none else some (Err.base "mismatch")
  passRegexMatch _ := true
  userValidate _ := none
  usersSave _ := ("", some (Err.base "save failed"))
  usersRetrieveByEmail _ := ({}, some (Err.base "no row"))
  usersRetrieveByID _ := ({}, some (Err.base "no row"))
  usersRetrieveAll _ _ _ _ _ := ({}, none)
  usersUpdateUser _ := none

/-- `baseEnv` with a working `Identify`: every token resolves to the
identity `("id1", "a@x")`. -/
def identEnv : SvcEnv :=
  { baseEnv with authIdentify := fun _ => (⟨"id1", "a@x"⟩, none) }

/-- An environment in which the registration gate passes via the
wildcard check, id generation yields `"uid1"`, and the auth client's
`AddPolicy` answers unauthorized — so `claimOwnership` fails. -/
def grantFailEnv : SvcEnv :=
  { baseEnv with
    authAuthorize := fun _ => (true, none)
    idProviderID := ("uid1", none) }

/-- An environment holding exactly one account, `a@x` with stored hash
`"HASH"`; every other email lookup fails. -/
def oneUserEnv : SvcEnv :=
  { baseEnv with
    usersRetrieveByEmail := fun em =>
      if em = "a@x" then ({ ID := "u1", Email := "a@x", Password := "HASH" }, none)
      else ({}, some (Err.base "no row")) }

/-- An environment whose `Members` call echoes the request's `Offset`
and `Limit` fields back as the member-id list, and whose repository
`RetrieveAll` turns each requested id into a user with that id — so the
fields of the member query become observable in the final page. -/
def membersProbeEnv : SvcEnv :=
  { baseEnv with
    authIdentify := fun _ => (⟨"id1", "a@x"⟩, none)
    authMembers := fun req => ([toString req.Offset, toString req.Limit], none)
    usersRetrieveAll := fun o l ids _ _ =>
      ({ Total := (ids.getD []).length, Offset := o, Limit := l,
         Users := some ((ids.getD []).map (fun s => { ID := s })) }, none) }

/-! ### Claim theorems -/

/-- C4: for the in-memory `PolicyAgent` backend, `CheckPolicy (s,o,r)`
on the state reached from the empty map by any sequence of `AddPolicy`
calls succeeds exactly when the sequence contains a request matching
all three fields; in particular a check right after adding the tuple
succeeds, `AddPolicy` itself always succeeds, and a check for a tuple
never added returns the denial error, never success. -/
theorem mock_check_iff_earlier_add (adds : List PolicyReq) (pr : PolicyReq) :
    (policyAgentMock.CheckPolicy (policyAgentMock.applyAdds AuthzDB.empty adds) pr = none
      ↔ pr ∈ adds)
  ∧ policyAgentMock.CheckPolicy
      (policyAgentMock.applyAdds AuthzDB.empty (adds ++ [pr])) pr = none
  ∧ (policyAgentMock.AddPolicy (policyAgentMock.applyAdds AuthzDB.empty adds) pr).2 = none
  ∧ (pr ∉ adds →
      policyAgentMock.CheckPolicy (policyAgentMock.applyAdds AuthzDB.empty adds) pr
        = some AuthErrAuthorization) := by
  refine ⟨mock_check_applyAdds_none_iff adds pr, ?_, rfl, ?_⟩
  · exact (mock_check_applyAdds_none_iff _ pr).mpr (by simp)
  · intro hnot
    rcases mock_check_none_or_denied (policyAgentMock.applyAdds AuthzDB.empty adds) pr with h | h
    · exact absurd ((mock_check_applyAdds_none_iff adds pr).mp h) hnot
    · exact h

/-- Witness for C4 at the empty run and the tuple `("s1","o1","r1")`:
the fresh tuple is denied before being added and accepted right after
its add. -/
theorem mock_check_iff_earlier_add_witness :
    policyAgentMock.CheckPolicy (policyAgentMock.applyAdds AuthzDB.empty [])
        ⟨"s1", "o1", "r1"⟩ = some AuthErrAuthorization
  ∧ policyAgentMock.CheckPolicy
      (policyAgentMock.applyAdds AuthzDB.empty ([] ++ [⟨"s1", "o1", "r1"⟩]))
        ⟨"s1", "o1", "r1"⟩ = none :=
  ⟨(mock_check_iff_earlier_add [] ⟨"s1", "o1", "r1"⟩).2.2.2 (by simp),
   (mock_check_iff_earlier_add [] ⟨"s1", "o1", "r1"⟩).2.1⟩

/-- C9 counterexample: a Keto backend whose write transaction fails
with a plain transport error; `AddPolicy` returns that error unchanged,
and its kind is not the authorization-error kind. -/
theorem keto_addPolicy_kind_counterexample :
    policyAgent.AddPolicy ketoFailEnv ⟨"s1", "o1", "r1"⟩
        = some (Err.base "transaction failed")
  ∧ (Err.base "transaction failed").kind ≠ AuthErrAuthorization.kind :=
  ⟨rfl, by decide⟩

/-- C9 amended: when the remote Keto backend's `AddPolicy` fails it
returns exactly the underlying transaction error, passed through
unwrapped (so its kind is whatever the transport reported, not
necessarily the authorization kind); the in-memory backend's
`AddPolicy` never fails at all. -/
theorem addPolicy_error_passthrough :
    (∀ (env : KetoEnv) (pr : PolicyReq),
      policyAgent.AddPolicy env pr
        = env.writerTransact
            ⟨[⟨.insert, ⟨ketoNamespace, pr.object, pr.relation, pr.subject⟩⟩]⟩)
  ∧ (∀ (db : AuthzDB) (pr : PolicyReq), (policyAgentMock.AddPolicy db pr).2 = none) :=
  ⟨fun _ _ => rfl, fun _ _ => rfl⟩

/-- C1: in `Register`, if the `AddPolicy` grant recorded in the call
trace fails, `Register` returns that error and the repository `Save`
is never invoked; and whenever a `Save` call appears in the trace, an
`AddPolicy` grant call precedes it. -/
theorem register_grant_gates_save (env : SvcEnv) (token : String) (user : User) :
    (∀ (req : AddPolicyReq) (e : Err),
        Event.addPolicyCall req ∈ (usersService.Register env token user).2 →
        usersService.claimOwnership env req.Sub req.Obj req.Act = some e →
        (usersService.Register env token user).1 = ("", some e)
          ∧ ∀ u : User, Event.saveCall u ∉ (usersService.Register env token user).2)
  ∧ (∀ u : User, Event.saveCall u ∈ (usersService.Register env token user).2 →
      ∃ req : AddPolicyReq,
        List.Sublist [Event.addPolicyCall req, Event.saveCall u]
          (usersService.Register env token user).2) := by
  cases hA : usersService.checkAuthz env token with
  | some e1 =>
    simp [usersService.Register, hA]
  | none =>
  cases hV : env.userValidate user with
  | some e2 =>
    simp [usersService.Register, hA, hV]
  | none =>
  cases hP : env.passRegexMatch user.Password with
  | false =>
    simp [usersService.Register, hA, hV, hP]
  | true =>
  cases hI : env.idProviderID.2 with
  | some e3 =>
    simp [usersService.Register, hA, hV, hP, hI]
  | none =>
  cases hC : usersService.claimOwnership env env.idProviderID.1
      usersObjKey memberRelationKey with
  | some e4 =>
    constructor
    · intro req e hmem hco
      have hreq : req = ⟨env.idProviderID.1, usersObjKey, memberRelationKey⟩ := by
        simp [usersService.Register, hA, hV, hP, hI, hC] at hmem
        exact hmem
      subst hreq
      simp only at hco
      rw [hco] at hC
      cases hC
      constructor
      · simp [usersService.Register, hA, hV, hP, hI, hco]
      · intro u
        simp [usersService.Register, hA, hV, hP, hI, hco]
    · intro u hmem
      simp [usersService.Register, hA, hV, hP, hI, hC] at hmem
  | none =>
  have hfirst : ∀ (req : AddPolicyReq) (e : Err),
      Event.addPolicyCall req ∈ (usersService.Register env token user).2 →
      usersService.claimOwnership env req.Sub req.Obj req.Act = some e →
      (usersService.Register env token user).1 = ("", some e)
        ∧ ∀ u : User, Event.saveCall u ∉ (usersService.Register env token user).2 := by
    intro req e hmem hco
    have hreq : req = ⟨env.idProviderID.1, usersObjKey, memberRelationKey⟩ := by
      cases hH : (env.hasherHash user.Password).2 with
      | some e5 =>
        simp [usersService.Register, hA, hV, hP, hI, hC, hH] at hmem
        exact hmem
      | none =>
        cases hS : (env.usersSave { user with
            ID := env.idProviderID.1, Password := (env.hasherHash user.Password).1 }).2 with
        | some e6 =>
          simp [usersService.Register, hA, hV, hP, hI, hC, hH, hS] at hmem
          exact hmem
        | none =>
          simp [usersService.Register, hA, hV, hP, hI, hC, hH, hS] at hmem
          exact hmem
    subst hreq
    simp only at hco
    rw [hco] at hC
    cases hC
  cases hH : (env.hasherHash user.Password).2 with
  | some e5 =>
    refine ⟨hfirst, ?_⟩
    intro u hmem
    simp [usersService.Register, hA, hV, hP, hI, hC, hH] at hmem
  | none =>
    refine ⟨hfirst, ?_⟩
    intro u hmem
    refine ⟨⟨env.idProviderID.1, usersObjKey, memberRelationKey⟩, ?_⟩
    cases hS : (env.usersSave { user with
        ID := env.idProviderID.1, Password := (env.hasherHash user.Password).1 }).2 with
    | some e6 =>
      simp only [usersService.Register, hA, hV, hP, hI, hC, hH, hS] at hmem ⊢
      simp at hmem
      subst hmem
      exact .cons _ (.cons₂ _ (.cons _ (.cons₂ _ .slnil)))
    | none =>
      simp only [usersService.Register, hA, hV, hP, hI, hC, hH, hS] at hmem ⊢
      simp at hmem
      subst hmem
      exact .cons _ (.cons₂ _ (.cons _ (.cons₂ _ .slnil)))

/-- Witness for C1: in `grantFailEnv` the gate passes, the grant for
the generated id `"uid1"` fails, `Register` surfaces the grant error
and the trace holds no `Save` call. -/
theorem register_grant_gates_save_witness :
    (usersService.Register grantFailEnv "tok" {}).1 = ("", some ErrAuthorization)
  ∧ Event.saveCall {} ∉ (usersService.Register grantFailEnv "tok" {}).2 := by
  have h := (register_grant_gates_save grantFailEnv "tok" {}).1
    ⟨"uid1", usersObjKey, memberRelationKey⟩ ErrAuthorization (by decide) (by decide)
  exact ⟨h.1, h.2 {}⟩

/-- Any error produced by `usersService.identify` has the
`ErrUnauthorizedAccess` kind. -/
theorem identify_err_kind (env : SvcEnv) (token : String) (e : Err)
    (h : (usersService.identify env token).2 = some e) :
    e.kind = ErrUnauthorizedAccess.kind := by
  unfold usersService.identify at h
  cases h2 : (env.authIdentify token).2 with
  | some e0 =>
    simp [h2] at h
    subst h
    rfl
  | none =>
    simp [h2] at h

/-- Any error produced by `usersService.authorize` has the
`ErrAuthorization` kind. -/
theorem authorize_err_kind (env : SvcEnv) (s o r : String) (e : Err)
    (h : usersService.authorize env s o r = some e) :
    e.kind = ErrAuthorization.kind := by
  unfold usersService.authorize at h
  cases h2 : (env.authAuthorize ⟨s, o, r⟩).2 with
  | some e0 =>
    simp [h2] at h
    subst h
    rfl
  | none =>
    by_cases hb : (env.authAuthorize ⟨s, o, r⟩).1
    · simp [h2, hb] at h
    · simp [h2, hb] at h
      subst h
      rfl

/-- C3 counterexample: in `identEnv` with token `"tok"`, the wildcard
bootstrap check is denied and the resolved identity `"id1"` lacks
`member` on `authorities`, yet `Register` fails with the
`ErrAuthorization` kind, not the Unauthorized kind. -/
theorem register_gate_kind_counterexample :
    usersService.authorize identEnv "*" "user" "create" = some ErrAuthorization
  ∧ usersService.identify identEnv "tok" = (⟨"id1", "a@x"⟩, none)
  ∧ usersService.authorize identEnv "id1" authoritiesObjKey memberRelationKey
      = some ErrAuthorization
  ∧ (usersService.Register identEnv "tok" {}).1 = ("", some ErrAuthorization)
  ∧ ErrAuthorization.kind ≠ ErrUnauthorizedAccess.kind :=
  ⟨by decide, by decide, by decide, by decide, by decide⟩

/-- C3 amended: when the wildcard bootstrap check fails and the
authorization gate rejects, `Register` surfaces the gate's error; that
error has the Unauthorized kind when the token is empty or cannot be
identified, and the Authorization (policy-check) kind when the
identified subject lacks `member` on `authorities`. -/
theorem register_gate_error_kinds (env : SvcEnv) (token : String) (user : User) (e : Err)
    (hw : usersService.authorize env "*" "user" "create" ≠ none)
    (hc : usersService.checkAuthz env token = some e) :
    (usersService.Register env token user).1 = ("", some e)
  ∧ ((token = "" ∨ (usersService.identify env token).2 ≠ none) →
      e.kind = ErrUnauthorizedAccess.kind)
  ∧ ((token ≠ "" ∧ (usersService.identify env token).2 = none) →
      e.kind = ErrAuthorization.kind) := by
  refine ⟨by simp [usersService.Register, hc], ?_⟩
  unfold usersService.checkAuthz at hc
  cases hA : usersService.authorize env "*" "user" "create" with
  | none => exact absurd hA hw
  | some e0 =>
    rw [hA] at hc
    by_cases ht : token = ""
    · rw [if_pos ht] at hc
      injection hc with hc
      subst hc
      constructor
      · intro _; rfl
      · rintro ⟨ht', -⟩; exact absurd ht ht'
    · rw [if_neg ht] at hc
      cases hI : usersService.identify env token with
      | mk ir err =>
        rw [hI] at hc
        cases err with
        | some e1 =>
          try simp at hc
          subst hc
          constructor
          · intro _
            exact identify_err_kind env token _ (by rw [hI])
          · rintro ⟨-, hnone⟩
            simp at hnone
        | none =>
          try simp at hc
          constructor
          · intro hd
            rcases hd with h | h
            · exact absurd h ht
            · exact absurd rfl h
          · intro _
            exact authorize_err_kind env ir.id authoritiesObjKey memberRelationKey e hc

/-- Witness for the amended C3 in `identEnv`: the gate rejects with the
Authorization kind for the identified, non-member caller. -/
theorem register_gate_error_kinds_witness :
    (usersService.Register identEnv "tok" {}).1 = ("", some ErrAuthorization)
  ∧ (("tok" = "" ∨ (usersService.identify identEnv "tok").2 ≠ none) →
      ErrAuthorization.kind = ErrUnauthorizedAccess.kind)
  ∧ (("tok" ≠ "" ∧ (usersService.identify identEnv "tok").2 = none) →
      ErrAuthorization.kind = ErrAuthorization.kind) :=
  register_gate_error_kinds identEnv "tok" {} ErrAuthorization (by decide) (by decide)

/-- C5: a `Login` whose email lookup fails and a `Login` whose hash
comparison fails both return an `ErrUnauthorizedAccess`-wrapped error,
so the two failure causes share the identical error kind. -/
theorem login_error_kind_uniform (env : SvcEnv) (u1 u2 : User) (e1 e2 : Err)
    (h1 : (env.usersRetrieveByEmail u1.Email).2 = some e1)
    (h2 : (env.usersRetrieveByEmail u2.Email).2 = none)
    (h3 : env.hasherCompare u2.Password (env.usersRetrieveByEmail u2.Email).1.Password
        = some e2) :
    (usersService.Login env u1).2 = some (Err.wrap ErrUnauthorizedAccess e1)
  ∧ (usersService.Login env u2).2 = some (Err.wrap ErrUnauthorizedAccess e2)
  ∧ (Err.wrap ErrUnauthorizedAccess e1).kind = (Err.wrap ErrUnauthorizedAccess e2).kind := by
  refine ⟨?_, ?_, rfl⟩
  · simp [usersService.Login, h1]
  · simp [usersService.Login, h2, h3]

/-- Witness for C5 in `oneUserEnv`: a nonexistent email and a wrong
password for the existing account yield errors of the same kind. -/
theorem login_error_kind_uniform_witness :
    (usersService.Login oneUserEnv { Email := "b@x" }).2
        = some (Err.wrap ErrUnauthorizedAccess (Err.base "no row"))
  ∧ (usersService.Login oneUserEnv { Email := "a@x", Password := "wrong" }).2
        = some (Err.wrap ErrUnauthorizedAccess (Err.base "mismatch"))
  ∧ (Err.wrap ErrUnauthorizedAccess (Err.base "no row")).kind
        = (Err.wrap ErrUnauthorizedAccess (Err.base "mismatch")).kind :=
  login_error_kind_uniform oneUserEnv { Email := "b@x" }
    { Email := "a@x", Password := "wrong" } (Err.base "no row") (Err.base "mismatch")
    (by decide) (by decide) (by decide)

/-- C6: the `User` value returned by `ViewUser` or `ViewProfile` always
carries an empty password field, whatever the repository stores. -/
theorem view_password_always_empty (env : SvcEnv) (token id : String) :
    (usersService.ViewUser env token id).1.Password = ""
  ∧ (usersService.ViewProfile env token).1.Password = "" := by
  constructor
  · unfold usersService.ViewUser
    cases hI : usersService.identify env token with
    | mk ir err =>
      cases err with
      | some e => simp
      | none =>
        cases hR : (env.usersRetrieveByID id).2 with
        | some e => simp [hR]
        | none => simp [hR]
  · unfold usersService.ViewProfile
    cases hI : usersService.identify env token with
    | mk ir err =>
      cases err with
      | some e => simp
      | none =>
        cases hR : (env.usersRetrieveByEmail ir.email).2 with
        | some e => simp [hR]
        | none => simp [hR]

/-- C7: the `User` that `UpdateUser` hands to the repository has the
resolved identity's email and the caller's metadata, empty id and
password, and the call is independent of the payload's id, email and
password fields. -/
theorem updateUser_scoped_to_identity (env : SvcEnv) (token : String) (u : User)
    (ir : userIdentity) (hI : usersService.identify env token = (ir, none)) :
    (usersService.UpdateUser env token u).2
        = [Event.updateUserCall { Email := ir.email, Metadata := u.Metadata }]
  ∧ (usersService.UpdateUser env token u).1
        = env.usersUpdateUser { Email := ir.email, Metadata := u.Metadata }
  ∧ ({ Email := ir.email, Metadata := u.Metadata : User }).ID = ""
  ∧ ({ Email := ir.email, Metadata := u.Metadata : User }).Password = ""
  ∧ ∀ u' : User, u'.Metadata = u.Metadata →
      usersService.UpdateUser env token u' = usersService.UpdateUser env token u := by
  refine ⟨?_, ?_, rfl, rfl, ?_⟩
  · simp [usersService.UpdateUser, hI]
  · simp [usersService.UpdateUser, hI]
  · intro u' hm
    simp [usersService.UpdateUser, hI, hm]

/-- Witness for C7 in `identEnv`: a payload with forged id, email and
password updates only the resolved identity's own record, identically
to a payload carrying the metadata alone. -/
theorem updateUser_scoped_to_identity_witness :
    (usersService.UpdateUser identEnv "tok"
        { ID := "evil", Email := "evil@x", Password := "p", Metadata := [("k", "v")] }).2
      = [Event.updateUserCall { Email := "a@x", Metadata := [("k", "v")] }]
  ∧ usersService.UpdateUser identEnv "tok" { Metadata := [("k", "v")] }
      = usersService.UpdateUser identEnv "tok"
          { ID := "evil", Email := "evil@x", Password := "p", Metadata := [("k", "v")] } := by
  have h := updateUser_scoped_to_identity identEnv "tok"
    { ID := "evil", Email := "evil@x", Password := "p", Metadata := [("k", "v")] }
    ⟨"id1", "a@x"⟩ (by decide)
  exact ⟨h.1, h.2.2.2.2 { Metadata := [("k", "v")] } rfl⟩

/-- C8: `ListMembers` with a valid token and an identity service that
returns no member ids yields a page echoing the requested offset and
limit, total zero, and an allocated empty (non-nil) user sequence. -/
theorem listMembers_empty_page (env : SvcEnv) (token groupID : String)
    (offset limit : Nat) (m : Metadata)
    (hid : (usersService.identify env token).2 = none)
    (hm : ∀ req : MembersReq, env.authMembers req = ([], none)) :
    usersService.ListMembers env token groupID offset limit m
      = ({ Total := 0, Offset := offset, Limit := limit, Name := "", Users := some [] },
         none) := by
  unfold usersService.ListMembers
  cases hI : usersService.identify env token with
  | mk ir err =>
    cases err with
    | some e => rw [hI] at hid; simp at hid
    | none => simp [usersService.members, hm]

/-- Witness for C8 in `identEnv` at offset 3, limit 5. -/
theorem listMembers_empty_page_witness :
    usersService.ListMembers identEnv "tok" "g1" 3 5 []
      = ({ Total := 0, Offset := 3, Limit := 5, Name := "", Users := some [] }, none) :=
  listMembers_empty_page identEnv "tok" "g1" 3 5 [] (by decide) (fun _ => rfl)

/-- C10: when the target lookup fails, `ViewUser` returns the zero
`User` together with the lookup error wrapped as
`ErrUnauthorizedAccess` — a kind distinct from both `ErrNotFound` and
`ErrUserNotFound`. -/
theorem viewUser_lookup_error_kind (env : SvcEnv) (token id : String) (e : Err)
    (hid : (usersService.identify env token).2 = none)
    (hr : (env.usersRetrieveByID id).2 = some e) :
    usersService.ViewUser env token id = ({}, some (Err.wrap ErrUnauthorizedAccess e))
  ∧ (Err.wrap ErrUnauthorizedAccess e).kind = ErrUnauthorizedAccess.kind
  ∧ ErrUnauthorizedAccess.kind ≠ ErrNotFound.kind
  ∧ ErrUnauthorizedAccess.kind ≠ ErrUserNotFound.kind := by
  refine ⟨?_, rfl, by decide, by decide⟩
  unfold usersService.ViewUser
  cases hI : usersService.identify env token with
  | mk ir err =>
    cases err with
    | some e0 => rw [hI] at hid; simp at hid
    | none => simp [hr]

/-- Witness for C10 in `identEnv`: looking up the missing id `"u9"`. -/
theorem viewUser_lookup_error_kind_witness :
    usersService.ViewUser identEnv "tok" "u9"
        = ({}, some (Err.wrap ErrUnauthorizedAccess (Err.base "no row")))
  ∧ (Err.wrap ErrUnauthorizedAccess (Err.base "no row")).kind = ErrUnauthorizedAccess.kind
  ∧ ErrUnauthorizedAccess.kind ≠ ErrNotFound.kind
  ∧ ErrUnauthorizedAccess.kind ≠ ErrUserNotFound.kind :=
  viewUser_lookup_error_kind identEnv "tok" "u9" (Err.base "no row") (by decide) (by decide)

/-- C2: the member query that `ListMembers` sends to the identity
service carries the caller's limit in its `Offset` field and the
caller's offset in its `Limit` field — the pairing is swapped. In
`membersProbeEnv`, which echoes the query's `Offset` and `Limit` back
as member ids, `ListMembers` with offset 1 and limit 2 surfaces the
ids `["2", "1"]`; and for every environment, `usersService.members`
invoked as the `ListMembers` call site does builds the request with
`Offset := limit` and `Limit := offset`. -/
theorem listMembers_query_fields_swapped :
    (usersService.ListMembers membersProbeEnv "tok" "gid" 1 2 []).1.Users
      = some [{ ID := "2" }, { ID := "1" }]
  ∧ (∀ (env : SvcEnv) (t g : String) (offset limit : Nat),
      usersService.members env t g offset limit
        = match env.authMembers
            { Token := t, GroupID := g, Offset := limit, Limit := offset, type := "users" } with
          | (_, some e) => ([], some e)
          | (ms, none) => (ms, none)) := by
  constructor
  · decide
  · intro env t g offset limit
    unfold usersService.members
    cases h : env.authMembers
        { Token := t, GroupID := g, Offset := limit, Limit := offset, type := "users" } with
    | mk ms err => cases err <;> simp [h]

end Mainflux
